import Mathlib

/-!
Verification of the Cognito user-pool import reconciliation code of this
repository against its natural-language specification.

Shallow embedding of:
  - packages/amplify-provider-awscloudformation/src/aws-utils/aws-utils.ts
    (pagedAWSCall),
  - the CognitoUserPoolService facade (listUserPools, listUserPoolClients),
  - packages/amplify-category-auth/src/provider-utils/awscloudformation/import.ts
    (validateUserPool, selectAppClients, appClientsOAuthPropertiesMatching,
    showValidationTable, isArraysEqual, the OAuth reconciliation loop body,
    createFullAuthOutputFromAnswers, createReducedAuthOutputFromAnswers,
    createOAuthCredentialsFromAnswers, updateStateFiles output computation,
    createFullOutputFromPartialOutput).

Conventions of the embedding:
  - TypeScript optional values become Option; JS truthiness of optional
    strings/arrays is modelled explicitly (undefined and "" are falsy strings,
    undefined arrays are falsy, any array - even [] - is truthy).
  - The JS in-place Array.sort() with default string comparison is modelled by
    insertion sort over a lexicographic code-point comparison of the
    characters (`jsStrLe`).
  - JSON.stringify of the OAuthMetadata record and of the credentials array is
    modelled by keeping the records themselves (stringification is injective
    on these record shapes, so record equality models string equality).
  - Remote AWS state that the code queries is passed in explicitly
    (`RemoteEnv`, `CognitoRemote`); promise-based calls become pure reads of
    that state, and an explicit Bool records whether a remote query happened.
-/

/-! ## JS value helpers -/

/-- Truthiness of an optional JS string: undefined and the empty string are falsy. -/
def jsTruthyStr : Option String → Bool
  | none => false
  | some s => !s.isEmpty

/-- Lodash `_.isEmpty` applied to an optional JS array: undefined and [] are empty. -/
def jsIsEmptyList {α : Type} : Option (List α) → Bool
  | none => true
  | some l => l.isEmpty

/-- The JS test `x && x.length > 0` for an optional array `x`
(an array is always truthy, undefined is falsy). -/
def optListNonEmpty {α : Type} : Option (List α) → Bool
  | none => false
  | some l => !l.isEmpty

/-- The JS expression `x?.toString() || ''` for an optional boolean `x`. -/
def jsBoolToString : Option Bool → String
  | none => ""
  | some true => "true"
  | some false => "false"

/-! ## The default JS string sort order

JavaScript `Array.prototype.sort()` without a comparator sorts strings by code
units; we model it with a lexicographic comparison of the character lists. -/

/-- Lexicographic comparison of character lists (true when the first is ≤). -/
def strLeAux : List Char → List Char → Bool
  | [], _ => true
  | _ :: _, [] => false
  | a :: as, b :: bs => if a < b then true else if b < a then false else strLeAux as bs

/-- The string comparison used by the modelled JS sort. -/
def jsStrLe (a b : String) : Bool := strLeAux a.data b.data

instance : DecidableRel (fun a b : String => jsStrLe a b = true) :=
  fun _ _ => instDecidableEqBool _ _

/-- The model of `[...xs].sort()` on a JS string array. -/
def sortStr (l : List String) : List String :=
  List.insertionSort (fun a b => jsStrLe a b = true) l

/-! ## Data model (aws-sdk shapes, restricted to the fields the code reads) -/

/-- UserPoolClientType fields used by import.ts. `ClientId` and `ClientName`
are accessed with non-null assertions in the source, so they are plain
strings here; all OAuth-related fields are genuinely optional. -/
structure UserPoolClientType where
  ClientId : String
  ClientName : String
  ClientSecret : Option String := none
  SupportedIdentityProviders : Option (List String) := none
  CallbackURLs : Option (List String) := none
  LogoutURLs : Option (List String) := none
  AllowedOAuthFlows : Option (List String) := none
  AllowedOAuthScopes : Option (List String) := none
  AllowedOAuthFlowsUserPoolClient : Option Bool := none
deriving DecidableEq

/-- UserPoolType fields used by import.ts. -/
structure UserPoolType where
  Id : String
  Name : String
  Domain : Option String := none
  MfaConfiguration : Option String := none
deriving DecidableEq

/-- The SmsConfiguration part of the MFA configuration response. -/
structure SmsConfigurationType where
  SnsCallerArn : Option String := none
deriving DecidableEq

/-- The SmsMfaConfiguration part of the MFA configuration response. -/
structure SmsMfaConfigType where
  SmsConfiguration : Option SmsConfigurationType := none
deriving DecidableEq

/-- GetUserPoolMfaConfigResponse, restricted to the fields the code reads. -/
structure GetUserPoolMfaConfigResponse where
  SmsMfaConfiguration : Option SmsMfaConfigType := none
deriving DecidableEq

/-- ProviderDetails of an identity provider (only the credential pair is read). -/
structure ProviderDetailsType where
  client_id : Option String := none
  client_secret : Option String := none
deriving DecidableEq

/-- IdentityProviderType fields used by createOAuthCredentialsFromAnswers. -/
structure IdentityProviderType where
  ProviderName : String
  ProviderDetails : Option ProviderDetailsType := none
deriving DecidableEq

/-- OAuthProperties from import.ts. -/
structure OAuthProperties where
  callbackURLs : Option (List String) := none
  logoutURLs : Option (List String) := none
  allowedOAuthFlows : Option (List String) := none
  allowedOAuthScopes : Option (List String) := none
  allowedOAuthFlowsUserPoolClient : Option Bool := none
deriving DecidableEq

/-- OAuthResult from import.ts. -/
structure OAuthResult where
  isValid : Bool
  oauthProviders : Option (List String) := none
  oauthProperties : Option OAuthProperties := none
deriving DecidableEq

/-- The fixed provider allowlist at the top of import.ts. -/
def supportedIdentityProviders : List String :=
  ["COGNITO", "Facebook", "Google", "LoginWithAmazon"]

/-! ## import.ts helper functions -/

/-- isArraysEqual from import.ts. The declared parameter type is `string[]`,
but every caller passes possibly-undefined fields through a non-null
assertion and the body re-guards with `left || []`, so the embedding takes
Option and applies the guard. -/
def isArraysEqual (left right : Option (List String)) : Bool :=
  let sortedLeft := sortStr (left.getD [])
  let sortedRight := sortStr (right.getD [])
  sortedLeft == sortedRight

/-- showValidationTable from import.ts, returning the `tableOptions` matrix
that the source hands to `context.print.table` (printing itself is the
message sink and is not modelled). -/
def showValidationTable (appClientWeb appClientNative : UserPoolClientType)
    (webValues nativeValues : Option (List String)) : List (List String) :=
  let webNames := sortStr (webValues.getD [])
  let nativeNames := sortStr (nativeValues.getD [])
  let webPadded :=
    if webNames.length < nativeNames.length then
      webNames ++ List.replicate (nativeNames.length - webNames.length) ""
    else webNames
  let nativePadded :=
    if nativeNames.length < webNames.length then
      nativeNames ++ List.replicate (webNames.length - nativeNames.length) ""
    else nativeNames
  [appClientWeb.ClientName, appClientNative.ClientName] ::
    List.zipWith (fun w n => [w, n]) webPadded nativePadded

/-- The callbackUrlMatching comparison of appClientsOAuthPropertiesMatching. -/
def callbackUrlMatching (appClientWeb appClientNative : UserPoolClientType) : Bool :=
  isArraysEqual appClientWeb.CallbackURLs appClientNative.CallbackURLs

/-- The logoutUrlsMatching comparison of appClientsOAuthPropertiesMatching. -/
def logoutUrlsMatching (appClientWeb appClientNative : UserPoolClientType) : Bool :=
  isArraysEqual appClientWeb.LogoutURLs appClientNative.LogoutURLs

/-- The allowedOAuthFlowsMatching comparison of appClientsOAuthPropertiesMatching. -/
def allowedOAuthFlowsMatching (appClientWeb appClientNative : UserPoolClientType) : Bool :=
  isArraysEqual appClientWeb.AllowedOAuthFlows appClientNative.AllowedOAuthFlows

/-- The allowedOAuthScopesMatching comparison of appClientsOAuthPropertiesMatching. -/
def allowedOAuthScopesMatching (appClientWeb appClientNative : UserPoolClientType) : Bool :=
  isArraysEqual appClientWeb.AllowedOAuthScopes appClientNative.AllowedOAuthScopes

/-- The allowedOAuthFlowsUserPoolClientMatching strict equality of
appClientsOAuthPropertiesMatching. -/
def allowedOAuthFlowsUserPoolClientMatching
    (appClientWeb appClientNative : UserPoolClientType) : Bool :=
  appClientWeb.AllowedOAuthFlowsUserPoolClient == appClientNative.AllowedOAuthFlowsUserPoolClient

/-- The supportedIdentityProvidersMatching comparison of
appClientsOAuthPropertiesMatching. -/
def supportedIdentityProvidersMatching
    (appClientWeb appClientNative : UserPoolClientType) : Bool :=
  isArraysEqual appClientWeb.SupportedIdentityProviders appClientNative.SupportedIdentityProviders

/-- The propertiesMatching conjunction of appClientsOAuthPropertiesMatching,
in source order. -/
def oauthPropertiesMatching (appClientWeb appClientNative : UserPoolClientType) : Bool :=
  supportedIdentityProvidersMatching appClientWeb appClientNative &&
  callbackUrlMatching appClientWeb appClientNative &&
  logoutUrlsMatching appClientWeb appClientNative &&
  allowedOAuthFlowsMatching appClientWeb appClientNative &&
  allowedOAuthScopesMatching appClientWeb appClientNative &&
  allowedOAuthFlowsUserPoolClientMatching appClientWeb appClientNative

/-- appClientsOAuthPropertiesMatching from import.ts (the returned OAuthResult;
the mismatch tables it prints are collected by `matchingValidationTables`).
The second branch models `!appClientWeb.SupportedIdentityProviders ||
appClientWeb.SupportedIdentityProviders.length === 0`. -/
def appClientsOAuthPropertiesMatching
    (appClientWeb appClientNative : UserPoolClientType) : OAuthResult :=
  if !(oauthPropertiesMatching appClientWeb appClientNative) then
    { isValid := false }
  else if appClientWeb.SupportedIdentityProviders.isNone ||
      (appClientWeb.SupportedIdentityProviders.getD []).isEmpty then
    { isValid := true }
  else
    let filteredProviders := (appClientWeb.SupportedIdentityProviders.getD []).filter
      (fun p => supportedIdentityProviders.contains p)
    { isValid := true
      oauthProviders := some filteredProviders
      oauthProperties := some
        { callbackURLs := appClientWeb.CallbackURLs
          logoutURLs := appClientWeb.LogoutURLs
          allowedOAuthFlows := appClientWeb.AllowedOAuthFlows
          allowedOAuthScopes := appClientWeb.AllowedOAuthScopes
          allowedOAuthFlowsUserPoolClient := appClientWeb.AllowedOAuthFlowsUserPoolClient } }

/-- The (title, table) pairs printed by appClientsOAuthPropertiesMatching when
some property does not match, in source order; empty when everything matches. -/
def matchingValidationTables (appClientWeb appClientNative : UserPoolClientType) :
    List (String × List (List String)) :=
  if oauthPropertiesMatching appClientWeb appClientNative then []
  else
    (if !(supportedIdentityProvidersMatching appClientWeb appClientNative) then
      [("Configured Identity Providers:",
        showValidationTable appClientWeb appClientNative
          appClientWeb.SupportedIdentityProviders appClientNative.SupportedIdentityProviders)]
    else []) ++
    (if !(allowedOAuthFlowsUserPoolClientMatching appClientWeb appClientNative) then
      [("OAuth Flow Enabled for Application Client:",
        showValidationTable appClientWeb appClientNative
          (some [jsBoolToString appClientWeb.AllowedOAuthFlowsUserPoolClient])
          (some [jsBoolToString appClientNative.AllowedOAuthFlowsUserPoolClient]))]
    else []) ++
    (if !(callbackUrlMatching appClientWeb appClientNative) then
      [("Callback URLs:",
        showValidationTable appClientWeb appClientNative
          appClientWeb.CallbackURLs appClientNative.CallbackURLs)]
    else []) ++
    (if !(logoutUrlsMatching appClientWeb appClientNative) then
      [("Logout URLs:",
        showValidationTable appClientWeb appClientNative
          appClientWeb.LogoutURLs appClientNative.LogoutURLs)]
    else []) ++
    (if !(allowedOAuthFlowsMatching appClientWeb appClientNative) then
      [("Allowed OAuth Flows:",
        showValidationTable appClientWeb appClientNative
          appClientWeb.AllowedOAuthFlows appClientNative.AllowedOAuthFlows)]
    else []) ++
    (if !(allowedOAuthScopesMatching appClientWeb appClientNative) then
      [("Allowed OAuth Scopes:",
        showValidationTable appClientWeb appClientNative
          appClientWeb.AllowedOAuthScopes appClientNative.AllowedOAuthScopes)]
    else [])

/-! ## validateUserPool and selectAppClients -/

/-- The web-client filter of validateUserPool: `!c.ClientSecret`
(undefined or empty-string secret). -/
def webClientsOf (userPoolClients : List UserPoolClientType) : List UserPoolClientType :=
  userPoolClients.filter (fun c => !(jsTruthyStr c.ClientSecret))

/-- The native-client filter of validateUserPool: `c.ClientSecret !== undefined`. -/
def nativeClientsOf (userPoolClients : List UserPoolClientType) : List UserPoolClientType :=
  userPoolClients.filter (fun c => c.ClientSecret.isSome)

/-- Result type of validateUserPool (`boolean | string` in the source:
the message string signals rejection, `true` signals success). -/
inductive UserPoolValidationResult
  | valid
  | invalid (message : String)
deriving DecidableEq

/-- validateUserPool from import.ts, as a function of the selected pool's
client list (the list the source obtains from cognito.listUserPoolClients). -/
def validateUserPool (userPoolClients : List UserPoolClientType) : UserPoolValidationResult :=
  let webClients := webClientsOf userPoolClients
  let nativeClients := nativeClientsOf userPoolClients
  if webClients.length < 1 || nativeClients.length < 1 then
    .invalid "The selected Cognito User Pool does not have at least 1 web and 1 native application client configured."
  else .valid

/-- The three fields of the answers/parameters records that selectAppClients
fills: the chosen clients and the both-auto-selected flag. -/
structure SelectClientsResult where
  appClientWeb : Option UserPoolClientType
  appClientNative : Option UserPoolClientType
  bothAppClientsWereAutoSelected : Bool
deriving DecidableEq

/-- selectAppClients from import.ts. A role with exactly one candidate is
auto-selected; otherwise the operator's prompt answer (`webChoice` /
`nativeChoice`, a client id) is looked up in the candidate list. The flag is
`autoSelected === 2`, i.e. both roles were auto-selected. -/
def selectAppClients (webClients nativeClients : List UserPoolClientType)
    (webChoice nativeChoice : String) : SelectClientsResult :=
  let webPick :=
    if webClients.length == 1 then (webClients.head?, true)
    else (webClients.find? (fun c => c.ClientId == webChoice), false)
  let nativePick :=
    if nativeClients.length == 1 then (nativeClients.head?, true)
    else (nativeClients.find? (fun c => c.ClientId == nativeChoice), false)
  { appClientWeb := webPick.1
    appClientNative := nativePick.1
    bothAppClientsWereAutoSelected := webPick.2 && nativePick.2 }

/-! ## The OAuth reconciliation loop body -/

/-- Outcome of one pass of the do-while loop in importResourceCore after the
two app clients have been selected. -/
inductive LoopStep
  | acceptTrivial
  | acceptOAuth (oauthProviders : Option (List String)) (oauthProperties : Option OAuthProperties)
  | failUnrecoverable
  | retry
deriving DecidableEq

/-- One pass of the do-while loop of importResourceCore (lines 174-212 of
import.ts) after the clients are selected. The guard of the trivial branch
repeats `answers.appClientWeb?.SupportedIdentityProviders` in BOTH conjuncts,
exactly as the source does on line 177; the native client is never tested. -/
def oauthLoopIteration (appClientWeb appClientNative : UserPoolClientType)
    (bothAppClientsWereAutoSelected : Bool) : LoopStep :=
  if jsIsEmptyList appClientWeb.SupportedIdentityProviders &&
      jsIsEmptyList appClientWeb.SupportedIdentityProviders then
    .acceptTrivial
  else
    let oauthResult := appClientsOAuthPropertiesMatching appClientWeb appClientNative
    if oauthResult.isValid then
      .acceptOAuth oauthResult.oauthProviders oauthResult.oauthProperties
    else if bothAppClientsWereAutoSelected then .failUnrecoverable
    else .retry

/-! ## Answers and outputs -/

/-- ImportAnswers at the point where updateStateFiles runs: the pool and both
clients are set (non-null assertions in the source), the rest is optional. -/
structure ImportAnswers where
  userPool : UserPoolType
  appClientWeb : UserPoolClientType
  appClientNative : UserPoolClientType
  oauthProviders : Option (List String) := none
  oauthProperties : Option OAuthProperties := none
  mfaConfiguration : Option GetUserPoolMfaConfigResponse := none
  identityProviders : Option (List IdentityProviderType) := none
deriving DecidableEq

/-- The hasOAuthConfig predicate computed identically in updateStateFiles and
in createFullOutputFromPartialOutput. -/
def hasOAuthConfigOfAnswers (answers : ImportAnswers) : Bool :=
  optListNonEmpty answers.oauthProviders &&
    (match answers.oauthProperties with
     | none => false
     | some p =>
       optListNonEmpty p.allowedOAuthFlows && optListNonEmpty p.allowedOAuthScopes &&
       optListNonEmpty p.callbackURLs && optListNonEmpty p.logoutURLs)

/-- The record serialized into output.OAuthMetadata (JSON.stringify is
modelled by keeping the record). -/
structure OAuthMetadataRecord where
  AllowedOAuthFlows : Option (List String) := none
  AllowedOAuthScopes : Option (List String) := none
  CallbackURLs : Option (List String) := none
  LogoutURLs : Option (List String) := none
deriving DecidableEq

/-- The full output object built by createFullAuthOutputFromAnswers. Optional
fields are absent exactly when the source leaves the key unset or assigns
undefined to it. -/
structure FullOutput where
  UserPoolId : String
  UserPoolName : String
  AppClientID : String
  AppClientSecret : Option String := none
  AppClientIDWeb : String
  HostedUIDomain : Option String := none
  CreatedSNSRole : Option String := none
  OAuthMetadata : Option OAuthMetadataRecord := none
deriving DecidableEq

/-- createFullAuthOutputFromAnswers from import.ts. CreatedSNSRole is set when
the pool's MfaConfiguration differs from 'OFF' and the separately fetched MFA
configuration carries an SmsConfiguration object; OAuthMetadata is set exactly
when the hasOAuthConfig argument is true (the source then dereferences
answers.oauthProperties with a non-null assertion; the getD default is never
reached when hasOAuthConfig was computed from the same answers). -/
def createFullAuthOutputFromAnswers (answers : ImportAnswers)
    (hasOAuthConfig : Bool) : FullOutput :=
  let userPool := answers.userPool
  let smsConfiguration :=
    (answers.mfaConfiguration.bind (fun m => m.SmsMfaConfiguration)).bind
      (fun m => m.SmsConfiguration)
  { UserPoolId := userPool.Id
    UserPoolName := userPool.Name
    AppClientID := answers.appClientNative.ClientId
    AppClientSecret := answers.appClientNative.ClientSecret
    AppClientIDWeb := answers.appClientWeb.ClientId
    HostedUIDomain := userPool.Domain
    CreatedSNSRole :=
      if userPool.MfaConfiguration != some "OFF" && smsConfiguration.isSome then
        smsConfiguration.bind (fun c => c.SnsCallerArn)
      else none
    OAuthMetadata :=
      if hasOAuthConfig then
        some { AllowedOAuthFlows := (answers.oauthProperties.getD {}).allowedOAuthFlows
               AllowedOAuthScopes := (answers.oauthProperties.getD {}).allowedOAuthScopes
               CallbackURLs := (answers.oauthProperties.getD {}).callbackURLs
               LogoutURLs := (answers.oauthProperties.getD {}).logoutURLs }
      else none }

/-- PartialOutput from import.ts: the reduced, backend-config shape. -/
structure PartialOutput where
  UserPoolId : String
  UserPoolName : String
  AppClientID : String
  AppClientIDWeb : String
deriving DecidableEq

/-- createReducedAuthOutputFromAnswers from import.ts. -/
def createReducedAuthOutputFromAnswers (answers : ImportAnswers) : PartialOutput :=
  { UserPoolId := answers.userPool.Id
    UserPoolName := answers.userPool.Name
    AppClientID := answers.appClientNative.ClientId
    AppClientIDWeb := answers.appClientWeb.ClientId }

/-- One entry of the hostedUIProviderCreds payload (JSON.stringify of the
array is modelled by keeping the list of records). -/
structure OAuthCredential where
  ProviderName : String
  client_id : Option String := none
  client_secret : Option String := none
deriving DecidableEq

/-- createOAuthCredentialsFromAnswers from import.ts. -/
def createOAuthCredentialsFromAnswers (answers : ImportAnswers) : List OAuthCredential :=
  (answers.identityProviders.getD []).map (fun idp =>
    { ProviderName := idp.ProviderName
      client_id := idp.ProviderDetails.bind (fun d => d.client_id)
      client_secret := idp.ProviderDetails.bind (fun d => d.client_secret) })

/-- The full (amplify-meta) output persisted by updateStateFiles:
createFullAuthOutputFromAnswers applied to its hasOAuthConfig computation. -/
def updateStateFilesMetaOutput (answers : ImportAnswers) : FullOutput :=
  createFullAuthOutputFromAnswers answers (hasOAuthConfigOfAnswers answers)

/-- The env-specific hostedUIProviderCreds parameter persisted by
updateStateFiles, present exactly when hasOAuthConfig holds. -/
def updateStateFilesEnvParams (answers : ImportAnswers) : Option (List OAuthCredential) :=
  if hasOAuthConfigOfAnswers answers then
    some (createOAuthCredentialsFromAnswers answers)
  else none

/-! ## Remote state and the two end-to-end paths -/

/-- The remote Cognito state read by the import and rehydration paths for the
one pool being imported. `mfaConfig = none` models getUserPoolMfaConfig
throwing (swallowed by the try/catch at line 221 of import.ts). -/
structure RemoteEnv where
  pool : UserPoolType
  clients : List UserPoolClientType
  identityProviders : List IdentityProviderType
  mfaConfig : Option GetUserPoolMfaConfigResponse := none
deriving DecidableEq

/-- The post-loop steps of importResourceCore (lines 219-228): fetch the MFA
configuration when the pool's MfaConfiguration is not 'OFF', and the identity
providers when OAuth providers were accepted. -/
def finishImportAnswers (env : RemoteEnv) (appClientWeb appClientNative : UserPoolClientType)
    (oauthProviders : Option (List String))
    (oauthProperties : Option OAuthProperties) : ImportAnswers :=
  { userPool := env.pool
    appClientWeb := appClientWeb
    appClientNative := appClientNative
    oauthProviders := oauthProviders
    oauthProperties := oauthProperties
    mfaConfiguration :=
      if env.pool.MfaConfiguration != some "OFF" then env.mfaConfig else none
    identityProviders :=
      if optListNonEmpty oauthProviders then some env.identityProviders else none }

/-- The answers record at the point updateStateFiles runs, for an import whose
loop pass on the selected pair exits with success; none when the pass exits
the loop as failed or asks for re-selection. -/
def importAcceptedAnswers (env : RemoteEnv) (appClientWeb appClientNative : UserPoolClientType)
    (bothAuto : Bool) : Option ImportAnswers :=
  match oauthLoopIteration appClientWeb appClientNative bothAuto with
  | .acceptTrivial => some (finishImportAnswers env appClientWeb appClientNative none none)
  | .acceptOAuth prov props => some (finishImportAnswers env appClientWeb appClientNative prov props)
  | .failUnrecoverable => none
  | .retry => none

/-- PartialOutputProcessingResult from import.ts. -/
structure PartialOutputProcessingResult where
  succeeded : Bool
  output : Option FullOutput := none
  hostedUIProviderCreds : Option (List OAuthCredential) := none
deriving DecidableEq

/-- createFullOutputFromPartialOutput from import.ts (the rehydration path),
as a function of the current remote state and the persisted reduced output.
The source first re-fetches the pool (throwing when it disappeared - the
embedding assumes the pool in `env` is the surviving pool), re-validates it,
looks both client ids up in the re-fetched client lists, re-runs the matching
step, and rebuilds the full output; it never re-fetches the MFA
configuration, so `mfaConfiguration` stays none. -/
def createFullOutputFromPartialOutput (env : RemoteEnv) (reduced : PartialOutput) :
    PartialOutputProcessingResult :=
  match validateUserPool env.clients with
  | .invalid _ => { succeeded := false }
  | .valid =>
    match (webClientsOf env.clients).find? (fun c => c.ClientId == reduced.AppClientIDWeb) with
    | none => { succeeded := false }
    | some appClientWeb =>
      match (nativeClientsOf env.clients).find? (fun c => c.ClientId == reduced.AppClientID) with
      | none => { succeeded := false }
      | some appClientNative =>
        let oauthResult := appClientsOAuthPropertiesMatching appClientWeb appClientNative
        if !oauthResult.isValid then { succeeded := false }
        else
          let answers : ImportAnswers :=
            { userPool := env.pool
              appClientWeb := appClientWeb
              appClientNative := appClientNative
              oauthProviders := oauthResult.oauthProviders
              oauthProperties := oauthResult.oauthProperties
              mfaConfiguration := none
              identityProviders :=
                if optListNonEmpty oauthResult.oauthProviders then
                  some env.identityProviders
                else none }
          let hasOAuthConfig := hasOAuthConfigOfAnswers answers
          { succeeded := true
            output := some (createFullAuthOutputFromAnswers answers hasOAuthConfig)
            hostedUIProviderCreds :=
              if hasOAuthConfig then some (createOAuthCredentialsFromAnswers answers)
              else none }

/-! ## The paginated enumerator (aws-utils.ts) -/

/-- One listing response: the item sequence the accessor extracts (absent when
the accessor yields undefined) and the continuation token. -/
structure Page (α : Type) where
  items : Option (List α) := none
  NextToken : Option String := none
deriving DecidableEq

/-- The do-while loop of pagedAWSCall. The first component is the accumulated
result, the second the sequence of NextToken arguments passed to the action,
one per invocation. The response stream is given as a list consumed one
response per call; under the theorems' hypotheses the stream is never
exhausted while a truthy token demands another call. The test
`if (response && accessor(response))` skips concatenation when the accessor
yields undefined; a present-but-empty array is truthy and concatenates
nothing, so both contribute `items.getD []`. The loop continues while
`!!response.NextToken` (absent and empty-string tokens are falsy). -/
def pagedAWSCallRun {α : Type} : Option String → List (Page α) → List α × List (Option String)
  | _, [] => ([], [])
  | cursor, response :: rest =>
    let contrib := response.items.getD []
    if jsTruthyStr response.NextToken then
      let next := pagedAWSCallRun response.NextToken rest
      (contrib ++ next.1, cursor :: next.2)
    else (contrib, [cursor])

/-- pagedAWSCall from aws-utils.ts: the loop starts with an undefined
NextToken. -/
def pagedAWSCall {α : Type} (pages : List (Page α)) : List α × List (Option String) :=
  pagedAWSCallRun none pages

/-! ## The CognitoUserPoolService facade -/

/-- UserPoolDescriptionType fields used by the facade and createParameters. -/
structure UserPoolDescriptionType where
  Id : String
  Name : String
deriving DecidableEq

/-- The remote Cognito API behind the facade: the drained user-pool listing
and, per pool id, the drained-and-described client list. -/
structure CognitoRemote where
  userPools : List UserPoolDescriptionType
  userPoolClients : String → List UserPoolClientType

/-- The mutable state of one CognitoUserPoolService instance: the single
`cachedUserPoolIds` field. -/
structure CognitoUserPoolServiceState where
  cachedUserPoolIds : List UserPoolDescriptionType
deriving DecidableEq

/-- Result of one facade call: the returned value, the instance state after
the call, and whether the remote API was queried during the call. -/
structure FacadeCallResult (α : Type) where
  result : α
  state : CognitoUserPoolServiceState
  queriedRemote : Bool

/-- CognitoUserPoolService.listUserPools: queries the remote listing (via
pagedAWSCall) and pushes the result into the cache only when the cache is
empty; otherwise returns the cached array untouched. -/
def listUserPools (remote : CognitoRemote) (s : CognitoUserPoolServiceState) :
    FacadeCallResult (List UserPoolDescriptionType) :=
  if s.cachedUserPoolIds.length == 0 then
    let s2 : CognitoUserPoolServiceState :=
      { cachedUserPoolIds := s.cachedUserPoolIds ++ remote.userPools }
    { result := s2.cachedUserPoolIds, state := s2, queriedRemote := true }
  else
    { result := s.cachedUserPoolIds, state := s, queriedRemote := false }

/-- CognitoUserPoolService.listUserPoolClients: pages through the client
listing and describes each client on every call; the method reads no cache
field and the instance state is unchanged. -/
def listUserPoolClients (remote : CognitoRemote) (s : CognitoUserPoolServiceState)
    (userPoolId : String) : FacadeCallResult (List UserPoolClientType) :=
  { result := remote.userPoolClients userPoolId, state := s, queriedRemote := true }

/-! ## Order lemmas for the modelled JS sort -/

theorem strLeAux_total : ∀ as bs : List Char, strLeAux as bs = true ∨ strLeAux bs as = true := by
  intro as
  induction as with
  | nil => intro bs; exact Or.inl rfl
  | cons a as ih =>
    intro bs
    cases bs with
    | nil => exact Or.inr rfl
    | cons b bs =>
      by_cases hab : a < b
      · left; simp [strLeAux, hab]
      · by_cases hba : b < a
        · right; simp [strLeAux, hba]
        · rcases ih bs with h | h
          · left; simp [strLeAux, hab, hba, h]
          · right; simp [strLeAux, hab, hba, h]

theorem strLeAux_antisymm :
    ∀ as bs : List Char, strLeAux as bs = true → strLeAux bs as = true → as = bs := by
  intro as
  induction as with
  | nil =>
    intro bs h1 h2
    cases bs with
    | nil => rfl
    | cons b bs => simp [strLeAux] at h2
  | cons a as ih =>
    intro bs h1 h2
    cases bs with
    | nil => simp [strLeAux] at h1
    | cons b bs =>
      by_cases hab : a < b
      · simp [strLeAux, hab, asymm hab] at h2
      · by_cases hba : b < a
        · simp [strLeAux, hab, hba] at h1
        · have heq : a = b := le_antisymm (not_lt.1 hba) (not_lt.1 hab)
          subst heq
          simp [strLeAux, hab] at h1 h2
          rw [ih bs h1 h2]

theorem strLeAux_trans :
    ∀ as bs cs : List Char, strLeAux as bs = true → strLeAux bs cs = true →
      strLeAux as cs = true := by
  intro as
  induction as with
  | nil => intro bs cs _ _; rfl
  | cons a as ih =>
    intro bs cs h1 h2
    cases bs with
    | nil => simp [strLeAux] at h1
    | cons b bs =>
      cases cs with
      | nil => simp [strLeAux] at h2
      | cons c cs =>
        by_cases hab : a < b
        · by_cases hbc : b < c
          · simp [strLeAux, lt_trans hab hbc]
          · by_cases hcb : c < b
            · simp [strLeAux, hbc, hcb] at h2
            · have heq : b = c := le_antisymm (not_lt.1 hcb) (not_lt.1 hbc)
              subst heq
              simp [strLeAux, hab]
        · by_cases hba : b < a
          · simp [strLeAux, hab, hba] at h1
          · have heq : a = b := le_antisymm (not_lt.1 hba) (not_lt.1 hab)
            subst heq
            simp [strLeAux, hab] at h1
            by_cases hbc : a < c
            · simp [strLeAux, hbc]
            · by_cases hcb : c < a
              · simp [strLeAux, hbc, hcb] at h2
              · simp [strLeAux, hbc, hcb] at h2 ⊢
                exact ih bs cs h1 h2

instance : IsTotal String (fun a b => jsStrLe a b = true) :=
  ⟨fun a b => strLeAux_total a.data b.data⟩

instance : IsTrans String (fun a b => jsStrLe a b = true) :=
  ⟨fun a b c => strLeAux_trans a.data b.data c.data⟩

instance : IsAntisymm String (fun a b => jsStrLe a b = true) :=
  ⟨fun a b h1 h2 => String.ext (strLeAux_antisymm a.data b.data h1 h2)⟩

theorem sortStr_perm (l : List String) : (sortStr l).Perm l :=
  List.perm_insertionSort _ l

theorem sortStr_length (l : List String) : (sortStr l).length = l.length :=
  (sortStr_perm l).length_eq

theorem sortStr_eq_of_perm {l₁ l₂ : List String} (h : l₁.Perm l₂) : sortStr l₁ = sortStr l₂ :=
  List.eq_of_perm_of_sorted
    ((sortStr_perm l₁).trans (h.trans (sortStr_perm l₂).symm))
    (List.sorted_insertionSort _ l₁)
    (List.sorted_insertionSort _ l₂)

theorem isArraysEqual_of_perm {left right : Option (List String)}
    (h : (left.getD []).Perm (right.getD [])) : isArraysEqual left right = true := by
  unfold isArraysEqual
  rw [sortStr_eq_of_perm h]
  simp

/-! ## C5: the paginated enumerator -/

theorem pagedAWSCallRun_cons {α : Type} (cursor : Option String) (response : Page α)
    (rest : List (Page α)) :
    pagedAWSCallRun cursor (response :: rest) =
      if jsTruthyStr response.NextToken then
        (response.items.getD [] ++ (pagedAWSCallRun response.NextToken rest).1,
          cursor :: (pagedAWSCallRun response.NextToken rest).2)
      else (response.items.getD [], [cursor]) := rfl

theorem pagedAWSCallRun_spec {α : Type} (lastPage : Page α)
    (hlast : jsTruthyStr lastPage.NextToken = false) :
    ∀ (init : List (Page α)) (cursor : Option String),
      (∀ p ∈ init, jsTruthyStr p.NextToken = true) →
      pagedAWSCallRun cursor (init ++ [lastPage]) =
        (((init ++ [lastPage]).map (fun p => p.items.getD [])).flatten,
          cursor :: init.map (fun p => p.NextToken)) := by
  intro init
  induction init with
  | nil =>
    intro cursor _
    simp [pagedAWSCallRun_cons, hlast, pagedAWSCallRun]
  | cons p rest ih =>
    intro cursor hmid
    have hp : jsTruthyStr p.NextToken = true := hmid p (List.mem_cons_self p rest)
    have ihr := ih p.NextToken (fun q hq => hmid q (List.mem_cons_of_mem p hq))
    rw [List.cons_append, pagedAWSCallRun_cons, if_pos hp, ihr]
    simp

/-- C5: for a response stream of N ≥ 1 pages in which every page but the last
carries a truthy continuation token and the last does not, pagedAWSCall makes
exactly N invocations - the first with an undefined NextToken argument, each
later one with the previous response's token - and returns the concatenation
of all pages' item sequences in page order, a page with an absent or empty
item sequence contributing nothing without stopping the pagination. -/
theorem pagedAWSCall_paginates {α : Type} (pages : List (Page α)) (hne : pages ≠ [])
    (hmid : ∀ p ∈ pages.dropLast, jsTruthyStr p.NextToken = true)
    (hlast : jsTruthyStr ((pages.getLast hne).NextToken) = false) :
    pagedAWSCall pages =
      ((pages.map (fun p => p.items.getD [])).flatten,
        none :: pages.dropLast.map (fun p => p.NextToken)) ∧
    (pagedAWSCall pages).2.length = pages.length := by
  have hdecomp := List.dropLast_append_getLast hne
  have h := pagedAWSCallRun_spec (pages.getLast hne) hlast pages.dropLast none hmid
  rw [hdecomp] at h
  have hmain : pagedAWSCall pages =
      ((pages.map (fun p => p.items.getD [])).flatten,
        none :: pages.dropLast.map (fun p => p.NextToken)) := h
  refine ⟨hmain, ?_⟩
  rw [hmain]
  have hlen : pages.length = pages.dropLast.length + 1 := by
    rw [List.length_dropLast]
    have := List.length_pos.2 hne
    omega
  rw [hlen]
  simp only [List.length_cons, List.length_map]

def c5WitnessPages : List (Page String) :=
  [{ items := some ["a", "b"], NextToken := some "t1" },
   { items := none, NextToken := some "t2" },
   { items := some [], NextToken := none }]

/-- Witness for C5 at a concrete three-page stream whose middle page has an
absent item sequence and whose last page has an empty one. -/
theorem pagedAWSCall_paginates_witness :
    pagedAWSCall c5WitnessPages = (["a", "b"], [none, some "t1", some "t2"]) ∧
    (pagedAWSCall c5WitnessPages).2.length = 3 := by
  have h := pagedAWSCall_paginates c5WitnessPages (by decide) (by decide) (by decide)
  refine ⟨?_, ?_⟩
  · rw [h.1]; decide
  · rw [h.2]; decide

/-! ## C4: facade caching -/

def c4Remote : CognitoRemote :=
  { userPools := []
    userPoolClients := fun _ =>
      [{ ClientId := "c1", ClientName := "client-1", ClientSecret := some "s" }] }

def c4EmptyState : CognitoUserPoolServiceState := { cachedUserPoolIds := [] }

/-- Counterexample for C4: repeated listUserPoolClients calls on one instance
each query the remote API (the method has no cache), and after a first
listUserPools call that found no pools, a second listUserPools call also
queries the remote API again. -/
theorem facadeCaching_counterexample :
    (listUserPoolClients c4Remote c4EmptyState "pool-1").queriedRemote = true ∧
    (listUserPoolClients c4Remote
      (listUserPoolClients c4Remote c4EmptyState "pool-1").state "pool-1").queriedRemote = true ∧
    (listUserPools c4Remote c4EmptyState).queriedRemote = true ∧
    (listUserPools c4Remote (listUserPools c4Remote c4EmptyState).state).queriedRemote = true :=
  ⟨rfl, rfl, rfl, rfl⟩

/-- C4 as amended: once a listUserPools call has returned a non-empty array,
a further listUserPools call on the same instance returns the same cached
array without querying the remote API; listUserPoolClients is not memoized
and queries the remote API on every call. -/
theorem facadeCaching_amended (remote : CognitoRemote) (s : CognitoUserPoolServiceState)
    (userPoolId : String) (h : (listUserPools remote s).result ≠ []) :
    (listUserPools remote (listUserPools remote s).state).result =
      (listUserPools remote s).result ∧
    (listUserPools remote (listUserPools remote s).state).queriedRemote = false ∧
    (listUserPoolClients remote s userPoolId).queriedRemote = true := by
  refine ⟨?_, ?_, rfl⟩ <;>
  · cases hs : s.cachedUserPoolIds with
    | nil =>
      have hne : remote.userPools ≠ [] := by
        intro hnil
        apply h
        simp [listUserPools, hs, hnil]
      have hlen : (remote.userPools.length == 0) = false := by
        simpa [List.length_eq_zero] using hne
      simp [listUserPools, hs, hlen]
    | cons x xs => simp [listUserPools, hs]

def c4WitnessRemote : CognitoRemote :=
  { userPools := [{ Id := "p1", Name := "Pool1" }]
    userPoolClients := fun _ => [] }

/-- Witness for C4 as amended, at a one-pool remote and a fresh instance. -/
theorem facadeCaching_amended_witness :
    (listUserPools c4WitnessRemote { cachedUserPoolIds := [] }).result =
      [{ Id := "p1", Name := "Pool1" }] ∧
    (listUserPools c4WitnessRemote
      (listUserPools c4WitnessRemote { cachedUserPoolIds := [] }).state).queriedRemote = false ∧
    (listUserPoolClients c4WitnessRemote { cachedUserPoolIds := [] } "p1").queriedRemote = true := by
  have h := facadeCaching_amended c4WitnessRemote { cachedUserPoolIds := [] } "p1"
    (by simp [listUserPools, c4WitnessRemote])
  exact ⟨rfl, h.2.1, h.2.2⟩

/-! ## C7 and C10: the eligibility check -/

theorem validateUserPool_valid_iff (userPoolClients : List UserPoolClientType) :
    validateUserPool userPoolClients = .valid ↔
      webClientsOf userPoolClients ≠ [] ∧ nativeClientsOf userPoolClients ≠ [] := by
  unfold validateUserPool
  constructor
  · intro h
    by_cases hw : webClientsOf userPoolClients = []
    · simp [hw] at h
    · by_cases hn : nativeClientsOf userPoolClients = []
      · simp [hn] at h
      · exact ⟨hw, hn⟩
  · intro ⟨hw, hn⟩
    have hwlen : ¬((webClientsOf userPoolClients).length < 1) := by
      have := List.length_pos.2 hw; omega
    have hnlen : ¬((nativeClientsOf userPoolClients).length < 1) := by
      have := List.length_pos.2 hn; omega
    simp [hwlen, hnlen]

/-- C7: a pool whose client partitions are not both non-empty (in particular
one with only secret-bearing or only non-secret-bearing registrations) is
rejected with the descriptive message, and validateUserPool succeeds exactly
when both the web partition and the native partition are non-empty. -/
theorem validateUserPool_requires_both_roles (userPoolClients : List UserPoolClientType) :
    ((webClientsOf userPoolClients = [] ∨ nativeClientsOf userPoolClients = []) →
      validateUserPool userPoolClients =
        .invalid "The selected Cognito User Pool does not have at least 1 web and 1 native application client configured.") ∧
    (validateUserPool userPoolClients = .valid ↔
      webClientsOf userPoolClients ≠ [] ∧ nativeClientsOf userPoolClients ≠ []) := by
  refine ⟨?_, validateUserPool_valid_iff userPoolClients⟩
  intro h
  unfold validateUserPool
  rcases h with h | h <;> simp [h]

/-- Witness for C7 at a pool with a single secret-bearing client. -/
theorem validateUserPool_requires_both_roles_witness :
    validateUserPool
        [{ ClientId := "n1", ClientName := "native-1", ClientSecret := some "secret1" }] =
      .invalid "The selected Cognito User Pool does not have at least 1 web and 1 native application client configured." :=
  (validateUserPool_requires_both_roles
    [{ ClientId := "n1", ClientName := "native-1", ClientSecret := some "secret1" }]).1
    (Or.inl (by decide))

/-- C10: a client whose secret is the (defined but falsy) empty string passes
both partition filters; a pool whose only client is such a client is
eligible, and selectAppClients then auto-selects that single client as both
the web and the native client, marking both roles auto-selected. -/
theorem emptySecret_client_in_both_roles (c : UserPoolClientType)
    (h : c.ClientSecret = some "") (webChoice nativeChoice : String) :
    (∀ clients : List UserPoolClientType, c ∈ clients →
      c ∈ webClientsOf clients ∧ c ∈ nativeClientsOf clients) ∧
    validateUserPool [c] = .valid ∧
    selectAppClients (webClientsOf [c]) (nativeClientsOf [c]) webChoice nativeChoice =
      { appClientWeb := some c, appClientNative := some c,
        bothAppClientsWereAutoSelected := true } := by
  have hweb : (!(jsTruthyStr c.ClientSecret)) = true := by rw [h]; decide
  have hnat : c.ClientSecret.isSome = true := by rw [h]; rfl
  have h1 : webClientsOf [c] = [c] := by
    simp [webClientsOf, List.filter_cons, hweb]
  have h2 : nativeClientsOf [c] = [c] := by
    simp [nativeClientsOf, List.filter_cons, hnat]
  refine ⟨?_, ?_, ?_⟩
  · intro clients hc
    exact ⟨List.mem_filter.2 ⟨hc, hweb⟩, List.mem_filter.2 ⟨hc, hnat⟩⟩
  · exact (validateUserPool_valid_iff [c]).2 ⟨by simp [h1], by simp [h2]⟩
  · rw [h1, h2]
    simp [selectAppClients]

def c10Client : UserPoolClientType :=
  { ClientId := "only", ClientName := "only-client", ClientSecret := some "" }

/-- Witness for C10 at a concrete single-client pool. -/
theorem emptySecret_client_in_both_roles_witness :
    (c10Client ∈ webClientsOf [c10Client] ∧ c10Client ∈ nativeClientsOf [c10Client]) ∧
    validateUserPool [c10Client] = .valid ∧
    selectAppClients (webClientsOf [c10Client]) (nativeClientsOf [c10Client]) "w" "n" =
      { appClientWeb := some c10Client, appClientNative := some c10Client,
        bothAppClientsWereAutoSelected := true } := by
  have h := emptySecret_client_in_both_roles c10Client rfl "w" "n"
  exact ⟨h.1 [c10Client] (List.mem_singleton.2 rfl), h.2.1, h.2.2⟩

/-! ## C9: totality of the comparison and table helpers on absent inputs -/

/-- C9: isArraysEqual and showValidationTable treat an absent value list as
the empty list (so two absent lists, or an absent and an empty list, compare
equal), and the rendered table always has 1 + max(|web list|, |native list|)
rows, the shorter sorted column being padded with blank entries. -/
theorem helpers_total_on_absent (appClientWeb appClientNative : UserPoolClientType)
    (webValues nativeValues r : Option (List String)) :
    isArraysEqual none none = true ∧
    isArraysEqual none (some []) = true ∧
    isArraysEqual (some []) none = true ∧
    isArraysEqual none r = isArraysEqual (some []) r ∧
    isArraysEqual r none = isArraysEqual r (some []) ∧
    showValidationTable appClientWeb appClientNative none nativeValues =
      showValidationTable appClientWeb appClientNative (some []) nativeValues ∧
    showValidationTable appClientWeb appClientNative webValues none =
      showValidationTable appClientWeb appClientNative webValues (some []) ∧
    (showValidationTable appClientWeb appClientNative webValues nativeValues).length =
      1 + max (webValues.getD []).length (nativeValues.getD []).length := by
  refine ⟨rfl, rfl, rfl, rfl, rfl, rfl, rfl, ?_⟩
  unfold showValidationTable
  have hw := sortStr_length (webValues.getD [])
  have hn := sortStr_length (nativeValues.getD [])
  set a := sortStr (webValues.getD []) with ha
  set b := sortStr (nativeValues.getD []) with hb
  simp only [List.length_cons, List.length_zipWith, List.length_append,
    List.length_replicate]
  split_ifs
  all_goals try simp only [List.length_append, List.length_replicate]
  all_goals omega

/-! ## C8: OAuthMetadata presence in the full output -/

theorem optListNonEmpty_iff {α : Type} (o : Option (List α)) :
    optListNonEmpty o = true ↔ ∃ l, o = some l ∧ l ≠ [] := by
  cases o <;> simp [optListNonEmpty]

/-- C8: the full output persisted by updateStateFiles carries an OAuthMetadata
record exactly when the accepted bundle has a non-empty provider list and each
of the four list properties is present and non-empty; otherwise the field is
absent. -/
theorem fullOutput_oauthMetadata_iff (answers : ImportAnswers) :
    (updateStateFilesMetaOutput answers).OAuthMetadata.isSome = true ↔
      ((∃ l, answers.oauthProviders = some l ∧ l ≠ []) ∧
        ∃ p, answers.oauthProperties = some p ∧
          (∃ v, p.allowedOAuthFlows = some v ∧ v ≠ []) ∧
          (∃ v, p.allowedOAuthScopes = some v ∧ v ≠ []) ∧
          (∃ v, p.callbackURLs = some v ∧ v ≠ []) ∧
          (∃ v, p.logoutURLs = some v ∧ v ≠ [])) := by
  have hmeta : (updateStateFilesMetaOutput answers).OAuthMetadata.isSome =
      hasOAuthConfigOfAnswers answers := by
    unfold updateStateFilesMetaOutput createFullAuthOutputFromAnswers
    by_cases h : hasOAuthConfigOfAnswers answers <;> simp [h]
  rw [hmeta]
  unfold hasOAuthConfigOfAnswers
  cases hp : answers.oauthProperties with
  | none => simp [optListNonEmpty_iff]
  | some p => simp [optListNonEmpty_iff, Bool.and_assoc, and_assoc]

/-! ## C6: acceptance on permutation-equal configurations -/

theorem matching_isValid_eq (appClientWeb appClientNative : UserPoolClientType) :
    (appClientsOAuthPropertiesMatching appClientWeb appClientNative).isValid =
      oauthPropertiesMatching appClientWeb appClientNative := by
  unfold appClientsOAuthPropertiesMatching
  cases h : oauthPropertiesMatching appClientWeb appClientNative with
  | false => simp
  | true =>
    cases h2 : (appClientWeb.SupportedIdentityProviders.isNone ||
        (appClientWeb.SupportedIdentityProviders.getD []).isEmpty) <;> simp [h2]

theorem matching_result_of_trivial (appClientWeb appClientNative : UserPoolClientType)
    (hvalid : (appClientsOAuthPropertiesMatching appClientWeb appClientNative).isValid = true)
    (hempty : jsIsEmptyList appClientWeb.SupportedIdentityProviders = true) :
    appClientsOAuthPropertiesMatching appClientWeb appClientNative = { isValid := true } := by
  have hpm : oauthPropertiesMatching appClientWeb appClientNative = true := by
    rw [← matching_isValid_eq]; exact hvalid
  have hcond : (appClientWeb.SupportedIdentityProviders.isNone ||
      (appClientWeb.SupportedIdentityProviders.getD []).isEmpty) = true := by
    cases hs : appClientWeb.SupportedIdentityProviders with
    | none => rfl
    | some l =>
      rw [hs] at hempty
      simp only [jsIsEmptyList] at hempty
      simp [hempty]
  unfold appClientsOAuthPropertiesMatching
  simp [hpm, hcond]

/-- C6 as amended: two clients whose five value lists are pairwise
permutations of each other (set-equality alone is not enough when a list
carries duplicates, see the counterexample) and whose flows-enabled values
are equal are accepted, and when the web client's provider list is non-empty
the result is the bundle built from the web client, its provider list
filtered to the fixed allowlist. -/
theorem oauthMatching_perm_accepts (appClientWeb appClientNative : UserPoolClientType)
    (hprov : (appClientWeb.SupportedIdentityProviders.getD []).Perm
      (appClientNative.SupportedIdentityProviders.getD []))
    (hcb : (appClientWeb.CallbackURLs.getD []).Perm (appClientNative.CallbackURLs.getD []))
    (hlo : (appClientWeb.LogoutURLs.getD []).Perm (appClientNative.LogoutURLs.getD []))
    (hfl : (appClientWeb.AllowedOAuthFlows.getD []).Perm
      (appClientNative.AllowedOAuthFlows.getD []))
    (hsc : (appClientWeb.AllowedOAuthScopes.getD []).Perm
      (appClientNative.AllowedOAuthScopes.getD []))
    (hbool : appClientWeb.AllowedOAuthFlowsUserPoolClient =
      appClientNative.AllowedOAuthFlowsUserPoolClient) :
    (appClientsOAuthPropertiesMatching appClientWeb appClientNative).isValid = true ∧
    ∀ l, appClientWeb.SupportedIdentityProviders = some l → l ≠ [] →
      appClientsOAuthPropertiesMatching appClientWeb appClientNative =
        { isValid := true
          oauthProviders := some (l.filter (fun p => supportedIdentityProviders.contains p))
          oauthProperties := some
            { callbackURLs := appClientWeb.CallbackURLs
              logoutURLs := appClientWeb.LogoutURLs
              allowedOAuthFlows := appClientWeb.AllowedOAuthFlows
              allowedOAuthScopes := appClientWeb.AllowedOAuthScopes
              allowedOAuthFlowsUserPoolClient :=
                appClientWeb.AllowedOAuthFlowsUserPoolClient } } := by
  have hpm : oauthPropertiesMatching appClientWeb appClientNative = true := by
    unfold oauthPropertiesMatching supportedIdentityProvidersMatching callbackUrlMatching
      logoutUrlsMatching allowedOAuthFlowsMatching allowedOAuthScopesMatching
      allowedOAuthFlowsUserPoolClientMatching
    rw [isArraysEqual_of_perm hprov, isArraysEqual_of_perm hcb, isArraysEqual_of_perm hlo,
      isArraysEqual_of_perm hfl, isArraysEqual_of_perm hsc, hbool]
    simp
  constructor
  · rw [matching_isValid_eq]; exact hpm
  · intro l hl hlne
    have hcond : (appClientWeb.SupportedIdentityProviders.isNone ||
        (appClientWeb.SupportedIdentityProviders.getD []).isEmpty) = false := by
      rw [hl]
      simp [hlne]
    unfold appClientsOAuthPropertiesMatching
    simp [hpm, hcond, hl]
    exact hlne

def c6Web : UserPoolClientType :=
  { ClientId := "w1", ClientName := "WebClient"
    SupportedIdentityProviders := some ["Google", "COGNITO", "MyOIDC"]
    CallbackURLs := some ["https://b", "https://a"]
    LogoutURLs := some ["https://l"]
    AllowedOAuthFlows := some ["code"]
    AllowedOAuthScopes := some ["openid", "email"]
    AllowedOAuthFlowsUserPoolClient := some true }

def c6Native : UserPoolClientType :=
  { ClientId := "n1", ClientName := "NativeClient", ClientSecret := some "s1"
    SupportedIdentityProviders := some ["MyOIDC", "COGNITO", "Google"]
    CallbackURLs := some ["https://a", "https://b"]
    LogoutURLs := some ["https://l"]
    AllowedOAuthFlows := some ["code"]
    AllowedOAuthScopes := some ["email", "openid"]
    AllowedOAuthFlowsUserPoolClient := some true }

/-- Witness for C6 as amended at concrete shuffled-but-permutation-equal
clients; the provider "MyOIDC" is dropped by the allowlist filter. -/
theorem oauthMatching_perm_accepts_witness :
    appClientsOAuthPropertiesMatching c6Web c6Native =
      { isValid := true
        oauthProviders := some ["Google", "COGNITO"]
        oauthProperties := some
          { callbackURLs := some ["https://b", "https://a"]
            logoutURLs := some ["https://l"]
            allowedOAuthFlows := some ["code"]
            allowedOAuthScopes := some ["openid", "email"]
            allowedOAuthFlowsUserPoolClient := some true } } := by
  have h := oauthMatching_perm_accepts c6Web c6Native
    (by decide) (by decide) (by decide) (by decide) (by decide) rfl
  have h2 := h.2 ["Google", "COGNITO", "MyOIDC"] rfl (by decide)
  rw [h2]
  decide

def c6DupWeb : UserPoolClientType :=
  { ClientId := "w2", ClientName := "WebDup"
    SupportedIdentityProviders := some ["Google", "Google"]
    AllowedOAuthFlowsUserPoolClient := some true }

def c6DupNative : UserPoolClientType :=
  { ClientId := "n2", ClientName := "NativeDup", ClientSecret := some "s2"
    SupportedIdentityProviders := some ["Google"]
    AllowedOAuthFlowsUserPoolClient := some true }

/-- Counterexample for C6 as frozen: these two clients have equal provider
SETS ({"Google"}), equal URL/flow/scope lists and equal flows-enabled values,
yet the matching step rejects them, because the sorted-list comparison
distinguishes the duplicated provider entry. -/
theorem oauthMatching_setEquality_counterexample :
    (∀ x : String, x ∈ c6DupWeb.SupportedIdentityProviders.getD [] ↔
      x ∈ c6DupNative.SupportedIdentityProviders.getD []) ∧
    c6DupWeb.CallbackURLs = c6DupNative.CallbackURLs ∧
    c6DupWeb.LogoutURLs = c6DupNative.LogoutURLs ∧
    c6DupWeb.AllowedOAuthFlows = c6DupNative.AllowedOAuthFlows ∧
    c6DupWeb.AllowedOAuthScopes = c6DupNative.AllowedOAuthScopes ∧
    c6DupWeb.AllowedOAuthFlowsUserPoolClient = c6DupNative.AllowedOAuthFlowsUserPoolClient ∧
    (appClientsOAuthPropertiesMatching c6DupWeb c6DupNative).isValid = false := by
  refine ⟨?_, rfl, rfl, rfl, rfl, rfl, by decide⟩
  intro x
  simp [c6DupWeb, c6DupNative]

/-! ## C1 and C3: the duplicated trivial-accept guard -/

def c1Web : UserPoolClientType := { ClientId := "c1-web", ClientName := "c1-web" }

def c1Native : UserPoolClientType :=
  { ClientId := "c1-native", ClientName := "c1-native", ClientSecret := some "sec"
    SupportedIdentityProviders := some ["Google"] }

/-- C1 (code bug): the trivial-accept guard on line 177 of import.ts tests
the web client's provider list in both conjuncts and never the native
client's, so with a web client declaring no federation providers and a native
client declaring one, the loop still takes the trivial-accept branch instead
of running the six-property matching step (which would have rejected the
pair). -/
theorem oauthLoop_trivialBranch_ignores_native :
    jsIsEmptyList c1Web.SupportedIdentityProviders = true ∧
    jsIsEmptyList c1Native.SupportedIdentityProviders = false ∧
    oauthLoopIteration c1Web c1Native false = .acceptTrivial ∧
    oauthLoopIteration c1Web c1Native true = .acceptTrivial ∧
    (appClientsOAuthPropertiesMatching c1Web c1Native).isValid = false := by decide

def c3Web : UserPoolClientType :=
  { ClientId := "c3-web", ClientName := "c3-web", SupportedIdentityProviders := some [] }

def c3Native : UserPoolClientType :=
  { ClientId := "c3-native", ClientName := "c3-native", ClientSecret := some "s3"
    SupportedIdentityProviders := some ["Facebook"] }

def c3Env : RemoteEnv :=
  { pool := { Id := "c3-pool", Name := "C3Pool", MfaConfiguration := some "OFF" }
    clients := [c3Web, c3Native]
    identityProviders := [] }

/-- C3 (code bug): a pair with disjoint provider sets (web's empty, native's
non-empty) that the matching step would reject with the provider comparison
table, yet - because the trivial-accept guard only ever tests the web client -
the loop accepts trivially on a both-auto-selected attempt and the import
proceeds instead of terminating as an unrecoverable failure. -/
theorem oauthMismatch_autoSelected_bug :
    c3Web.SupportedIdentityProviders = some [] ∧
    c3Native.SupportedIdentityProviders = some ["Facebook"] ∧
    (appClientsOAuthPropertiesMatching c3Web c3Native).isValid = false ∧
    (matchingValidationTables c3Web c3Native).map Prod.fst =
      ["Configured Identity Providers:"] ∧
    oauthLoopIteration c3Web c3Native true = .acceptTrivial ∧
    (importAcceptedAnswers c3Env c3Web c3Native true).isSome = true := by decide

/-! ## C2: the import/rehydration round trip -/

theorem importAcceptedAnswers_of_valid (env : RemoteEnv)
    (appClientWeb appClientNative : UserPoolClientType) (bothAuto : Bool)
    (hvalid : (appClientsOAuthPropertiesMatching appClientWeb appClientNative).isValid = true) :
    importAcceptedAnswers env appClientWeb appClientNative bothAuto =
      some (finishImportAnswers env appClientWeb appClientNative
        (appClientsOAuthPropertiesMatching appClientWeb appClientNative).oauthProviders
        (appClientsOAuthPropertiesMatching appClientWeb appClientNative).oauthProperties) := by
  unfold importAcceptedAnswers oauthLoopIteration
  by_cases hempty : jsIsEmptyList appClientWeb.SupportedIdentityProviders = true
  · rw [matching_result_of_trivial appClientWeb appClientNative hvalid hempty]
    simp [hempty]
  · have hempty' : jsIsEmptyList appClientWeb.SupportedIdentityProviders = false := by
      cases h : jsIsEmptyList appClientWeb.SupportedIdentityProviders
      · rfl
      · exact absurd h hempty
    simp [hempty', hvalid]

def c2Web : UserPoolClientType :=
  { ClientId := "web-1", ClientName := "web-1", CallbackURLs := some ["https://a"] }

def c2Native : UserPoolClientType :=
  { ClientId := "native-1", ClientName := "native-1", ClientSecret := some "s1"
    CallbackURLs := some ["https://b"] }

def c2Env : RemoteEnv :=
  { pool := { Id := "pool-1", Name := "Pool-1", MfaConfiguration := some "OFF" }
    clients := [c2Web, c2Native]
    identityProviders := [] }

/-- Counterexample for C2 as frozen: neither client declares federation
providers, so the interactive import trivially accepts and persists this
pair, yet with the remote state completely unchanged the rehydration path
fails (succeeded = false), because it re-runs the six-property matching step
that the import's trivial-accept branch never ran and the callback URL lists
differ. -/
theorem importRoundTrip_counterexample :
    (importAcceptedAnswers c2Env c2Web c2Native true).isSome = true ∧
    (importAcceptedAnswers c2Env c2Web c2Native true).map (fun answers =>
      (createFullOutputFromPartialOutput c2Env
        (createReducedAuthOutputFromAnswers answers)).succeeded) = some false := by decide

/-- C2 as amended: when the import's accepted pair additionally passes the
six-property matching step (which the trivial-accept branch does not
guarantee), the client-id lookups in the unchanged remote state return the
selected clients, and the pool's MFA configuration is 'OFF' (the rehydration
path never re-fetches the MFA configuration, so CreatedSNSRole is reproduced
only when it was absent), rehydration from the reduced output succeeds and
reproduces the persisted full output and credentials payload exactly. -/
theorem importRoundTrip_amended (env : RemoteEnv)
    (appClientWeb appClientNative : UserPoolClientType) (bothAuto : Bool)
    (hw : (webClientsOf env.clients).find? (fun c => c.ClientId == appClientWeb.ClientId) =
      some appClientWeb)
    (hn : (nativeClientsOf env.clients).find? (fun c => c.ClientId == appClientNative.ClientId) =
      some appClientNative)
    (hvalid : (appClientsOAuthPropertiesMatching appClientWeb appClientNative).isValid = true)
    (hmfa : env.pool.MfaConfiguration = some "OFF") :
    ∃ answers, importAcceptedAnswers env appClientWeb appClientNative bothAuto = some answers ∧
      createFullOutputFromPartialOutput env (createReducedAuthOutputFromAnswers answers) =
        { succeeded := true
          output := some (updateStateFilesMetaOutput answers)
          hostedUIProviderCreds := updateStateFilesEnvParams answers } := by
  refine ⟨_, importAcceptedAnswers_of_valid env appClientWeb appClientNative bothAuto hvalid, ?_⟩
  have hwmem : appClientWeb ∈ webClientsOf env.clients := List.mem_of_find?_eq_some hw
  have hnmem : appClientNative ∈ nativeClientsOf env.clients := List.mem_of_find?_eq_some hn
  have hval : validateUserPool env.clients = .valid :=
    (validateUserPool_valid_iff env.clients).2
      ⟨List.ne_nil_of_mem hwmem, List.ne_nil_of_mem hnmem⟩
  have hred : createReducedAuthOutputFromAnswers (finishImportAnswers env appClientWeb
      appClientNative
      (appClientsOAuthPropertiesMatching appClientWeb appClientNative).oauthProviders
      (appClientsOAuthPropertiesMatching appClientWeb appClientNative).oauthProperties) =
      { UserPoolId := env.pool.Id, UserPoolName := env.pool.Name,
        AppClientID := appClientNative.ClientId, AppClientIDWeb := appClientWeb.ClientId } := rfl
  rw [hred]
  unfold createFullOutputFromPartialOutput
  simp only [hval, hw, hn, hvalid]
  simp [updateStateFilesMetaOutput, updateStateFilesEnvParams, finishImportAnswers, hmfa]

def c2GoodWeb : UserPoolClientType :=
  { ClientId := "web-a", ClientName := "web-a"
    SupportedIdentityProviders := some ["Google"]
    CallbackURLs := some ["https://cb"]
    LogoutURLs := some ["https://lo"]
    AllowedOAuthFlows := some ["code"]
    AllowedOAuthScopes := some ["openid"]
    AllowedOAuthFlowsUserPoolClient := some true }

def c2GoodNative : UserPoolClientType :=
  { ClientId := "native-a", ClientName := "native-a", ClientSecret := some "sec-a"
    SupportedIdentityProviders := some ["Google"]
    CallbackURLs := some ["https://cb"]
    LogoutURLs := some ["https://lo"]
    AllowedOAuthFlows := some ["code"]
    AllowedOAuthScopes := some ["openid"]
    AllowedOAuthFlowsUserPoolClient := some true }

def c2GoodEnv : RemoteEnv :=
  { pool := { Id := "pool-a", Name := "PoolA", Domain := some "dom"
              MfaConfiguration := some "OFF" }
    clients := [c2GoodWeb, c2GoodNative]
    identityProviders :=
      [{ ProviderName := "Google"
         ProviderDetails := some { client_id := some "gid", client_secret := some "gsec" } }] }

/-- Witness for C2 as amended at a concrete OAuth-configured pool with an
identity-provider credential pair to round-trip. -/
theorem importRoundTrip_amended_witness :
    (importAcceptedAnswers c2GoodEnv c2GoodWeb c2GoodNative true).map (fun answers =>
      decide (createFullOutputFromPartialOutput c2GoodEnv
          (createReducedAuthOutputFromAnswers answers) =
        { succeeded := true
          output := some (updateStateFilesMetaOutput answers)
          hostedUIProviderCreds := updateStateFilesEnvParams answers })) = some true := by
  obtain ⟨answers, ha, heq⟩ := importRoundTrip_amended c2GoodEnv c2GoodWeb c2GoodNative true
    (by decide) (by decide) (by decide) rfl
  rw [ha]
  simp [heq]
